import Mathlib

/-!
Shallow embedding of the ingestion/scheduling core of the
`end-to-end-video-game-ml` repository (a games-catalog application).

The definitions below are translated from the Python source:
  * `src/backend/crud.py`    — `get_game_by_slug`, `create_game`
    (whose unconditional `AttributeError` is modelled, see below), and
    `get_games`;
  * `src/worker/rawg_api.py` — `make_request`, `fetch_games_for_month`;
  * `src/worker/tasks.py`    — `fetch_games_for_month_task`,
    `fetch_weekly_updates_task`, `fetch_monthly_updates_task`;
  * `src/backend/task_scheduler.py` — `DynamicTaskScheduler`.

The relational store is modelled as lists of rows; SQLAlchemy's
`query(...).filter(...).first()` becomes `List.find?`, `db.add` appends a
row, and association tables become lists of id pairs.  External JSON
records are modelled by the record structures the tasks extract from
them.  Machine floats (the `rating` column) are modelled by `Rat`; the
claims checked here never depend on float rounding.
-/

namespace GameInsight

/-- A row of one of the four attribute look-up tables (`genres`,
`platforms`, `stores`, `tags` in `src/backend/models.py`); also the
shape of the corresponding `GenreCreate`/`PlatformCreate`/… schemas,
which carry exactly the fields `id`, `name`, `slug`. -/
structure AttrData where
  id : Int
  name : String
  slug : String
deriving DecidableEq

/-- A row of the `games` table (`models.Game`), restricted to the columns
the ingestion claims mention.  `background_image`, `clip` and the
timestamp columns are never read by any claim and are omitted. -/
structure GameRow where
  id : Int
  slug : String
  name : String
  released : Option String
  rating : Option Rat
  ratings_count : Option Int
  metacritic : Option Int
  playtime : Option Int
deriving DecidableEq

/-- The `schemas.GameCreate` payload built by the ingestion tasks from an
external catalog record: exactly the fields `GameBase`/`GameCreate`
declare in `src/backend/schemas.py` — the scalar game fields plus the
four linked attribute lists.  Note that neither class declares a
`background_image` or `clip` field; `crud.create_game` nevertheless
reads both, which is the crash modelled below. -/
structure GameCreate where
  id : Int
  slug : String
  name : String
  released : Option String
  rating : Option Rat
  ratings_count : Option Int
  metacritic : Option Int
  playtime : Option Int
  genres : List AttrData
  platforms : List AttrData
  stores : List AttrData
  tags : List AttrData
deriving DecidableEq

/-- The relational database state: the `games` table, the four attribute
tables, and the four many-to-many association tables (each a list of
`(game_id, attribute_id)` pairs), per `src/backend/models.py`. -/
structure Db where
  games : List GameRow
  genres : List AttrData
  platforms : List AttrData
  stores : List AttrData
  tags : List AttrData
  gameGenres : List (Int × Int)
  gamePlatforms : List (Int × Int)
  gameStores : List (Int × Int)
  gameTags : List (Int × Int)
deriving DecidableEq

/-- The empty database. -/
def emptyDb : Db :=
  { games := [], genres := [], platforms := [], stores := [], tags := [],
    gameGenres := [], gamePlatforms := [], gameStores := [], gameTags := [] }

/-- `crud.get_game_by_slug`:
`db.query(models.Game).filter(models.Game.slug == slug).first()`. -/
def get_game_by_slug (db : Db) (slug : String) : Option GameRow :=
  db.games.find? (fun g => g.slug == slug)

/-- `crud.create_game`: the source begins by constructing
`models.Game(id=game.id, …, background_image=game.background_image,
clip=game.clip)`.  The keyword arguments are evaluated first, and
`game.background_image` raises `AttributeError` because
`schemas.GameCreate` (`GameBase`) declares no such field — so every call
fails before `db.add` is reached: no game row is inserted, and the
attribute-linking loops (`get_or_create` over genres, platforms, stores,
tags) further down the function are dead code.  The session is left
unchanged. -/
def create_game (_db : Db) (_g : GameCreate) : Except String Db :=
  Except.error "AttributeError: 'GameCreate' object has no attribute 'background_image'"

/-! ### `crud.get_games` (listing with optional filters and sort) -/

/-- Python truthiness of an optional string parameter: `if search:` is
false for both `None` and the empty string. -/
def truthyOptStr (s : Option String) : Bool :=
  match s with
  | none => false
  | some v => !(v == "")

/-- Python truthiness of an optional numeric parameter: `if rating:` is
false for both `None` and `0`. -/
def truthyOptRat (r : Option Rat) : Bool :=
  match r with
  | none => false
  | some v => !(v == 0)

/-- Character-list prefix test, used to model SQL `contains`. -/
def charsPrefixOf : List Char → List Char → Bool
  | [], _ => true
  | _ :: _, [] => false
  | a :: as, b :: bs => a == b && charsPrefixOf as bs

/-- Character-list substring test, used to model SQL `contains`. -/
def charsSubstrOf (needle : List Char) : List Char → Bool
  | [] => needle.isEmpty
  | c :: rest => charsPrefixOf needle (c :: rest) || charsSubstrOf needle rest

/-- SQL `Game.name.contains(search)`: substring test on the name. -/
def nameContains (g : GameRow) (s : String) : Bool :=
  charsSubstrOf s.toList g.name.toList

/-- A sortable column value of the `games` table.  The cross-type order
below is arbitrary; no claim depends on the relative order produced by a
valid sort, only on whether sorting happens at all. -/
inductive ColVal where
  | iv (v : Int)
  | sv (v : String)
  | orv (v : Option Rat)
  | oiv (v : Option Int)
  | osv (v : Option String)
deriving DecidableEq

/-- Comparison on column values.  `none` (SQL NULL) sorts first within
its column type; the placement of NULLs is dialect-specific in the
source and is not relied on by any claim. -/
def colLe : ColVal → ColVal → Bool
  | ColVal.iv a, ColVal.iv b => a ≤ b
  | ColVal.sv a, ColVal.sv b => a ≤ b
  | ColVal.orv a, ColVal.orv b =>
      match a, b with
      | none, _ => true
      | some _, none => false
      | some x, some y => x ≤ y
  | ColVal.oiv a, ColVal.oiv b =>
      match a, b with
      | none, _ => true
      | some _, none => false
      | some x, some y => x ≤ y
  | ColVal.osv a, ColVal.osv b =>
      match a, b with
      | none, _ => true
      | some _, none => false
      | some x, some y => x ≤ y
  | _, _ => true

/-- `getattr(models.Game, sort_by, None)` restricted to the modelled
scalar columns: the column accessor for a name, or `none` when the name
matches no modelled `Game` column. -/
def sortKey (name : String) : Option (GameRow → ColVal) :=
  if name == "id" then some (fun g => ColVal.iv g.id)
  else if name == "slug" then some (fun g => ColVal.sv g.slug)
  else if name == "name" then some (fun g => ColVal.sv g.name)
  else if name == "released" then some (fun g => ColVal.osv g.released)
  else if name == "rating" then some (fun g => ColVal.orv g.rating)
  else if name == "ratings_count" then some (fun g => ColVal.oiv g.ratings_count)
  else if name == "metacritic" then some (fun g => ColVal.oiv g.metacritic)
  else if name == "playtime" then some (fun g => ColVal.oiv g.playtime)
  else none

/-- Insertion step of the sort used to model `query.order_by`. -/
def insertLe (le : GameRow → GameRow → Bool) (a : GameRow) :
    List GameRow → List GameRow
  | [] => [a]
  | b :: rest => if le a b then a :: b :: rest else b :: insertLe le a rest

/-- Insertion sort modelling `query.order_by(column)`. -/
def sortGames (le : GameRow → GameRow → Bool) : List GameRow → List GameRow
  | [] => []
  | a :: rest => insertLe le a (sortGames le rest)

/-- Membership of a game in the join of `Game.genres` with a slug
filter: some association pair links the game to a genre row with the
requested slug. -/
def joinedWithGenre (db : Db) (g : GameRow) (slug : String) : Bool :=
  db.gameGenres.any (fun l =>
    l.1 == g.id && db.genres.any (fun a => a.id == l.2 && a.slug == slug))

/-- Membership of a game in the join of `Game.platforms` with a slug
filter. -/
def joinedWithPlatform (db : Db) (g : GameRow) (slug : String) : Bool :=
  db.gamePlatforms.any (fun l =>
    l.1 == g.id && db.platforms.any (fun a => a.id == l.2 && a.slug == slug))

/-- `crud.get_games`: build the query, apply each filter only when its
parameter is truthy, apply the sort only when `sort_by` names a `Game`
column (`getattr(models.Game, sort_by, None)`), then
`offset(skip).limit(limit)`. -/
def get_games (db : Db) (skip limit : Nat) (search genre platform : Option String)
    (rating : Option Rat) (sort_by : Option String) (sort_order : String) :
    List GameRow :=
  let q0 := db.games
  let q1 := if truthyOptStr search then
      q0.filter (fun g => nameContains g (search.getD "")) else q0
  let q2 := if truthyOptStr genre then
      q1.filter (fun g => joinedWithGenre db g (genre.getD "")) else q1
  let q3 := if truthyOptStr platform then
      q2.filter (fun g => joinedWithPlatform db g (platform.getD "")) else q2
  let q4 := if truthyOptRat rating then
      q3.filter (fun g =>
        match g.rating with
        | some x => rating.getD 0 ≤ x
        | none => false)
      else q3
  let q5 :=
    match sort_by with
    | none => q4
    | some name =>
      match sortKey name with
      | none => q4
      | some col =>
        if sort_order == "desc" then
          sortGames (fun a b => colLe (col b) (col a)) q4
        else
          sortGames (fun a b => colLe (col a) (col b)) q4
  (q5.drop skip).take limit

/-! ### `src/worker/rawg_api.py` — the external catalog client

A transport is a function from attempt number to the outcome of one
`client.get` call; a paged transport additionally takes the requested
page number.  The JSON body of a successful response is modelled by
`PageData`: the `results` list (records are opaque for the pagination
claims and modelled by their external ids) and the `next` field, which is
`none` when the key is absent or JSON `null`. -/

/-- The JSON body of one successful catalog response page. -/
structure PageData where
  results : List Nat
  next : Option String
deriving DecidableEq

/-- Python truthiness of `"next" in data and data["next"]`: true exactly
when the `next` field is present and a non-empty string. -/
def nextTruthy (p : PageData) : Bool :=
  match p.next with
  | none => false
  | some s => !(s == "")

/-- The outcome of one `client.get` call inside `make_request`:
a successful response, an HTTP status error with the given code
(`httpx.HTTPStatusError` from `raise_for_status`), or a network failure
(`httpx.RequestError`). -/
inductive ApiOutcome where
  | success (body : PageData)
  | httpError (status : Nat)
  | requestError
deriving DecidableEq

/-- Whether an outcome is handled by a sleep-and-retry branch of
`make_request`: a 502 status error or a network `RequestError`. -/
def isTransient (o : ApiOutcome) : Bool :=
  match o with
  | ApiOutcome.success _ => false
  | ApiOutcome.httpError c => c == 502
  | ApiOutcome.requestError => false

/-- Whether an outcome is an HTTP status error that is neither 404 nor
502 — the `else` branch of `make_request`'s status handling. -/
def isOtherHttpError (o : ApiOutcome) : Bool :=
  match o with
  | ApiOutcome.httpError c => !(c == 404) && !(c == 502)
  | _ => false

/-- The `for i in range(retries)` loop of `rawg_api.make_request`,
starting at attempt `i` with `fuel` iterations left.  Returns the result
(`none` models the Python `return None`), the number of `client.get`
calls made, and the list of sleep durations performed, in order.
On success the response is returned at once; a 404 returns `None`
immediately; a 502 or a network error sleeps `backoff_factor * 2 ** i`
seconds and continues; any other HTTP status error only logs — the loop
then continues with the next attempt (the source has no `return` in that
branch).  When the loop ends, `None` is returned. -/
def make_request_go (tr : Nat → ApiOutcome) (backoff : Rat) :
    Nat → Nat → Option PageData × Nat × List Rat
  | _, 0 => (none, 0, [])
  | i, fuel + 1 =>
    match tr i with
    | ApiOutcome.success body => (some body, 1, [])
    | ApiOutcome.httpError c =>
      if c == 404 then (none, 1, [])
      else if c == 502 then
        let rec' := make_request_go tr backoff (i + 1) fuel
        (rec'.1, rec'.2.1 + 1, backoff * 2 ^ i :: rec'.2.2)
      else
        let rec' := make_request_go tr backoff (i + 1) fuel
        (rec'.1, rec'.2.1 + 1, rec'.2.2)
    | ApiOutcome.requestError =>
      let rec' := make_request_go tr backoff (i + 1) fuel
      (rec'.1, rec'.2.1 + 1, backoff * 2 ^ i :: rec'.2.2)

/-- `rawg_api.make_request` with explicit `retries` and `backoff_factor`
(the source defaults are `5` and `1.0`). -/
def make_request (tr : Nat → ApiOutcome) (retries : Nat) (backoff : Rat) :
    Option PageData × Nat × List Rat :=
  make_request_go tr backoff 0 retries

/-- The `while True` pagination loop shared by
`rawg_api.fetch_games_for_month` and
`rawg_api.fetch_recently_updated_games`, starting at the given page
number.  `tr page attempt` is the transport outcome for the given page
and attempt.  Returns the accumulated `results` and the list of page
numbers requested, in order.  `fuel` bounds the number of loop
iterations; every claim supplies enough fuel for the loop to terminate
on its own. -/
def fetch_pages (tr : Nat → Nat → ApiOutcome) (retries : Nat) (backoff : Rat) :
    Nat → Nat → List Nat × List Nat
  | _, 0 => ([], [])
  | page, fuel + 1 =>
    match (make_request (tr page) retries backoff).1 with
    | none => ([], [page])
    | some body =>
      if nextTruthy body then
        let rest := fetch_pages tr retries backoff (page + 1) fuel
        (body.results ++ rest.1, page :: rest.2)
      else (body.results, [page])

/-- `rawg_api.fetch_games_for_month`: fail fast when the API key is
falsy (`None` or empty), otherwise walk the pages starting from page 1
with the default retry parameters (`retries=5`, `backoff_factor=1.0`).
The month parameters only shape the query string of each request and are
absorbed into the transport. -/
def fetch_games_for_month (apiKey : Option String) (tr : Nat → Nat → ApiOutcome)
    (fuel : Nat) : Except String (List Nat × List Nat) :=
  if truthyOptStr apiKey then Except.ok (fetch_pages tr 5 1 1 fuel)
  else Except.error "RAWG_API_KEY environment variable not set."

/-! ### `src/worker/tasks.py` — ingestion tasks

The external records a task receives are modelled by the `GameCreate`
payloads it extracts from the JSON dictionaries (the task's own dict
plumbing — `game_data.get(...)`, unwrapping `p["platform"]` — is the
identity under this representation). -/

/-- The per-record loop of `fetch_games_for_month_task`: look the slug
up; when present, leave the row untouched; when absent, call
`crud.create_game` — which raises, aborting the loop (the task has no
per-record exception handling, so the exception propagates out of the
task).  Returns the database as left behind and either the error or the
final `games_created` counter. -/
def monthGo : List GameCreate → Db → Nat → Db × Except String Nat
  | [], db, created => (db, Except.ok created)
  | r :: rest, db, created =>
    match get_game_by_slug db r.slug with
    | some _ => monthGo rest db created
    | none =>
      match create_game db r with
      | Except.ok db2 => monthGo rest db2 (created + 1)
      | Except.error e => (db, Except.error e)

/-- `tasks.fetch_games_for_month_task` applied to the records fetched
from the catalog: the final database together with either the uncaught
exception or the result counters `(games_fetched, games_created)`. -/
def fetch_games_for_month_task (db : Db) (records : List GameCreate) :
    Db × Except String (Nat × Nat) :=
  match monthGo records db 0 with
  | (db2, Except.ok created) => (db2, Except.ok (records.length, created))
  | (db2, Except.error e) => (db2, Except.error e)

/-- The per-record loop of `fetch_weekly_updates_task`.  When the slug is
already present the source constructs `schemas.GameUpdate(...)` — but
`schemas.py` defines no `GameUpdate` class, so that line raises
`AttributeError` and the loop aborts (and even past that line, the call
`crud.update_game(db, game_id=..., game=...)` does not match the
signature `update_game(db, db_game, game_update)`).  When the slug is
absent a full `GameCreate` is built and `crud.create_game` runs — which
also raises (no `background_image` field).  Returns the database as left
behind and either the error or the final `(games_created,
games_updated)` counters. -/
def weeklyGo : List GameCreate → Db → Nat → Nat →
    Db × Except String (Nat × Nat)
  | [], db, created, updated => (db, Except.ok (created, updated))
  | r :: rest, db, created, updated =>
    match get_game_by_slug db r.slug with
    | some _ =>
      (db, Except.error "AttributeError: module src.backend.schemas has no attribute GameUpdate")
    | none =>
      match create_game db r with
      | Except.ok db2 => weeklyGo rest db2 (created + 1) updated
      | Except.error e => (db, Except.error e)

/-- `tasks.fetch_weekly_updates_task` applied to the records fetched from
the catalog: the final database together with either the uncaught
exception or the result counters `(games_fetched, games_created,
games_updated)`. -/
def fetch_weekly_updates_task (db : Db) (records : List GameCreate) :
    Db × Except String (Nat × Nat × Nat) :=
  match weeklyGo records db 0 0 with
  | (db2, Except.ok cu) => (db2, Except.ok (records.length, cu.1, cu.2))
  | (db2, Except.error e) => (db2, Except.error e)

/-! ### `tasks.fetch_monthly_updates_task` — previous-month computation -/

/-- A wall-clock calendar date, as produced by `datetime.now()`. -/
structure Date where
  year : Int
  month : Nat
  day : Nat
deriving DecidableEq

/-- Gregorian leap-year test, as implemented by Python's `datetime`. -/
def isLeap (y : Int) : Bool :=
  (y % 4 == 0 && !(y % 100 == 0)) || y % 400 == 0

/-- Number of days in a month of the Gregorian calendar. -/
def daysInMonth (y : Int) (m : Nat) : Nat :=
  if m == 2 then (if isLeap y then 29 else 28)
  else if m == 4 || m == 6 || m == 9 || m == 11 then 30
  else 31

/-- `datetime` subtraction of one day (`timedelta(days=1)`) on a valid
date: step back within the month, else to the last day of the previous
month, rolling the year back from January. -/
def subOneDay (d : Date) : Date :=
  if 1 < d.day then { d with day := d.day - 1 }
  else if 1 < d.month then
    { year := d.year, month := d.month - 1, day := daysInMonth d.year (d.month - 1) }
  else
    { year := d.year - 1, month := 12, day := 31 }

/-- The `(year, month)` pair that `tasks.fetch_monthly_updates_task`
passes to `fetch_games_for_month_task`:
`previous_month = datetime.now().replace(day=1) - timedelta(days=1)`,
then `(previous_month.year, previous_month.month)`. -/
def fetch_monthly_updates_args (now : Date) : Int × Nat :=
  let pm := subOneDay { now with day := 1 }
  (pm.year, pm.month)

/-! ### `src/backend/task_scheduler.py` — the dynamic task scheduler

The APScheduler job store is modelled as a list of jobs; a paused job is
one whose `next_run_time` is cleared, modelled by a `paused` flag.
Task arguments are opaque payloads.  Building an `IntervalTrigger` or
`CronTrigger` from the trigger parameters happens inside the scheduling
library; the embedding keeps the parameters opaque and models the
validation the source itself performs: the function name must be a key
of `available_tasks` and the trigger type one of the two supported
kinds. -/

/-- `task_scheduler.TaskConfig` (a pydantic model). -/
structure TaskConfig where
  id : String
  name : String
  task_function : String
  trigger_type : String
  trigger_config : List (String × Int)
  args : List String
  kwargs : List (String × String)
  enabled : Bool
  description : Option String
deriving DecidableEq

/-- A trigger object built from the configuration parameters. -/
inductive Trigger where
  | interval (cfg : List (String × Int))
  | cron (cfg : List (String × Int))
deriving DecidableEq

/-- A job registered in the APScheduler in-memory job store: the job id
and name, the payload `[task_func, args, kwargs]` submitted to the queue
when the trigger fires, the trigger, and whether the job is paused. -/
structure Job where
  id : String
  name : String
  funcName : String
  args : List String
  kwargs : List (String × String)
  trigger : Trigger
  paused : Bool
deriving DecidableEq

/-- The keys of the scheduler's `available_tasks` mapping. -/
def availableTasks : List String :=
  ["fetch_monthly_updates", "fetch_weekly_updates", "example_task"]

/-- The scheduler's mutable state: the job store and the stored
`task_configs` dictionary (an association list keyed by task id). -/
structure Sched where
  jobs : List Job
  task_configs : List (String × TaskConfig)
deriving DecidableEq

/-- Whether the job store holds a job with the given id. -/
def hasJob (s : Sched) (id : String) : Bool :=
  s.jobs.any (fun j => j.id == id)

/-- Dictionary lookup in the stored `task_configs`. -/
def configLookup (s : Sched) (id : String) : Option TaskConfig :=
  (s.task_configs.find? (fun kv => kv.1 == id)).map (fun kv => kv.2)

/-- Dictionary assignment `task_configs[id] = tc`. -/
def configSet (l : List (String × TaskConfig)) (id : String) (tc : TaskConfig) :
    List (String × TaskConfig) :=
  if l.any (fun kv => kv.1 == id) then
    l.map (fun kv => if kv.1 == id then (kv.1, tc) else kv)
  else l ++ [(id, tc)]

/-- `DynamicTaskScheduler.pause_task`: `scheduler.pause_job` raises on an
unknown id (caught, returning false); on success the job's next fire
time is cleared and the stored configuration's `enabled` flag is set to
false in lockstep. -/
def pause_task (s : Sched) (id : String) : Sched × Bool :=
  if hasJob s id then
    ({ jobs := s.jobs.map (fun j => if j.id == id then { j with paused := true } else j),
       task_configs := s.task_configs.map (fun kv =>
         if kv.1 == id then (kv.1, { kv.2 with enabled := false }) else kv) },
     true)
  else (s, false)

/-- `DynamicTaskScheduler.add_task`: raise (caught, returning false and
leaving the state unchanged) when the function name is not a key of
`available_tasks` or the trigger type is neither `interval` nor `cron`;
otherwise build the trigger, `add_job` with `replace_existing=True`
(dropping any job with the same id), store the configuration, and pause
the new job when `enabled` is false.  Returns the new state and the
boolean result. -/
def add_task (s : Sched) (tc : TaskConfig) : Sched × Bool :=
  let register := fun (trig : Trigger) =>
    let newJob : Job :=
      { id := tc.id, name := tc.name, funcName := tc.task_function,
        args := tc.args, kwargs := tc.kwargs, trigger := trig, paused := false }
    let s1 : Sched :=
      { jobs := s.jobs.filter (fun j => !(j.id == tc.id)) ++ [newJob],
        task_configs := configSet s.task_configs tc.id tc }
    let s2 := if tc.enabled then s1 else (pause_task s1 tc.id).1
    (s2, true)
  if !(availableTasks.contains tc.task_function) then (s, false)
  else if tc.trigger_type == "interval" then register (Trigger.interval tc.trigger_config)
  else if tc.trigger_type == "cron" then register (Trigger.cron tc.trigger_config)
  else (s, false)

/-- `DynamicTaskScheduler.remove_task`: `scheduler.remove_job` raises on
an unknown id — the exception is caught and false returned with the
stored configuration left in place; on success both the job and its
configuration are discarded. -/
def remove_task (s : Sched) (id : String) : Sched × Bool :=
  if hasJob s id then
    ({ jobs := s.jobs.filter (fun j => !(j.id == id)),
       task_configs := s.task_configs.filter (fun kv => !(kv.1 == id)) },
     true)
  else (s, false)

/-- `DynamicTaskScheduler.modify_task`: remove the old task, then add the
new configuration under the same id; the result is the result of the
add step. -/
def modify_task (s : Sched) (id : String) (tc : TaskConfig) : Sched × Bool :=
  let r := remove_task s id
  add_task r.1 { tc with id := id }

/-! ### Concrete inputs used by counterexamples and witnesses -/

/-- A catalog record with one genre, as the month task extracts it. -/
def recActionA : GameCreate :=
  { id := 1, slug := "game-a", name := "Game A", released := none, rating := none,
    ratings_count := none, metacritic := none, playtime := none,
    genres := [⟨5, "Action", "action"⟩], platforms := [], stores := [], tags := [] }

/-- A second catalog record whose genre equals `recActionA`'s genre on
all three fields. -/
def recActionB2 : GameCreate :=
  { id := 2, slug := "game-b", name := "Game B", released := none, rating := none,
    ratings_count := none, metacritic := none, playtime := none,
    genres := [⟨5, "Action", "action"⟩], platforms := [], stores := [], tags := [] }

/-- The record of the repository's own weekly-update test
(`tests/test_worker.py`, `test_fetch_weekly_updates_task_updates_existing_game`). -/
def recExisting : GameCreate :=
  { id := 1, slug := "existing-game", name := "Existing Game Updated", released := none,
    rating := none, ratings_count := none, metacritic := none, playtime := none,
    genres := [], platforms := [], stores := [], tags := [] }

/-- The row of the game with slug `existing-game`, as it would sit in
the `games` table. -/
def rowExisting : GameRow :=
  { id := 1, slug := "existing-game", name := "Existing Game", released := none,
    rating := none, ratings_count := none, metacritic := none, playtime := none }

/-- A database already holding the game with slug `existing-game`. -/
def dbExisting : Db := { emptyDb with games := [rowExisting] }

/-- A two-page transport: page 1 succeeds with a truthy `next`, page 2
succeeds with `next` null, later pages 404. -/
def trTwoPages : Nat → Nat → ApiOutcome := fun page _ =>
  if page == 1 then ApiOutcome.success ⟨[1, 2], some "url"⟩
  else if page == 2 then ApiOutcome.success ⟨[3], none⟩
  else ApiOutcome.httpError 404

/-- A transport whose page 1 succeeds with a truthy `next` and whose
page 2 always fails with 502. -/
def trPageTwoDown : Nat → Nat → ApiOutcome := fun page _ =>
  if page == 1 then ApiOutcome.success ⟨[1, 2], some "url"⟩
  else ApiOutcome.httpError 502

/-- A single-page transport that fails transiently on the first two
attempts and then succeeds. -/
def trTransientTwice : Nat → ApiOutcome := fun i =>
  if i < 2 then ApiOutcome.httpError 502 else ApiOutcome.success ⟨[7], none⟩

/-- A valid interval task configuration for the scheduler claims. -/
def tcInterval : TaskConfig :=
  { id := "t1", name := "T1", task_function := "example_task", trigger_type := "interval",
    trigger_config := [("seconds", 30)], args := [], kwargs := [], enabled := true,
    description := none }

/-- `tcInterval` with an unregistered function name. -/
def tcBadFunction : TaskConfig := { tcInterval with task_function := "no_such_function" }

/-- `tcInterval` with `enabled := false`. -/
def tcDisabled : TaskConfig := { tcInterval with enabled := false }

/-- `tcInterval` with an unsupported trigger kind. -/
def tcBadTrigger : TaskConfig := { tcInterval with trigger_type := "yearly" }

/-- A game row with no rating (SQL NULL). -/
def rowNullRating : GameRow :=
  { id := 1, slug := "a", name := "Alpha", released := none, rating := none,
    ratings_count := none, metacritic := none, playtime := none }

/-- A game row with a rating. -/
def rowRated : GameRow :=
  { id := 2, slug := "b", name := "Beta", released := none, rating := some 4,
    ratings_count := none, metacritic := none, playtime := none }

/-- A two-game database for the listing claims. -/
def dbTwoGames : Db := { emptyDb with games := [rowNullRating, rowRated] }

/-! ### Claim C7 — monthly rollup computes the previous calendar month -/

/-- C7: for every current wall-clock date (any valid month), the
zero-argument monthly-rollup task computes the previous calendar month —
rolling the year back to December of the prior year when the current
month is January — and delegates to the month-fetch task with exactly
that `(year, month)` pair. -/
theorem monthly_rollup_delegates_previous_month (d : Date)
    (h1 : 1 ≤ d.month) (h2 : d.month ≤ 12) :
    fetch_monthly_updates_args d =
      if d.month = 1 then (d.year - 1, 12) else (d.year, d.month - 1) := by
  unfold fetch_monthly_updates_args subOneDay
  by_cases hm : d.month = 1
  · simp [hm]
  · have hgt : 1 < d.month := by omega
    simp [hm, hgt]

/-- Witness for C7 at January and March dates. -/
theorem monthly_rollup_delegates_previous_month_witness :
    fetch_monthly_updates_args ⟨2024, 1, 15⟩ = (2023, 12) ∧
    fetch_monthly_updates_args ⟨2024, 3, 31⟩ = (2024, 2) := by
  constructor
  · exact (monthly_rollup_delegates_previous_month ⟨2024, 1, 15⟩ (by decide) (by decide)).trans
      (by decide)
  · exact (monthly_rollup_delegates_previous_month ⟨2024, 3, 31⟩ (by decide) (by decide)).trans
      (by decide)

/-! ### Claim C1 — both branches of the weekly-update task crash -/

/-- C1 (code bug): the claim says the weekly-update task updates rating,
ratings_count, metacritic and playtime on an existing row when the slug
matches, and creates exactly one new row with full attribute-set linkage
when it does not.  The code can do neither.  On the existing-slug branch
it evaluates `schemas.GameUpdate(...)`, but `schemas.py` defines no
`GameUpdate` class, so the task raises `AttributeError` (and even past
that line, the call `crud.update_game(db, game_id=..., game=...)` does
not match the signature `update_game(db, db_game, game_update)`).  On
the absent-slug branch it calls `crud.create_game`, which raises
`AttributeError` reading `game.background_image` — a field
`schemas.GameCreate` does not declare — before `db.add`.  Evaluating the
task at both failing inputs (the existing-slug one is the input of the
repository's own test
`test_fetch_weekly_updates_task_updates_existing_game`): each run ends
in the uncaught exception with the database untouched — no update and no
new row. -/
theorem weekly_update_task_crashes :
    (fetch_weekly_updates_task dbExisting [recExisting]
      = (dbExisting,
         Except.error "AttributeError: module src.backend.schemas has no attribute GameUpdate")) ∧
    (fetch_weekly_updates_task dbExisting [recActionA]
      = (dbExisting,
         Except.error "AttributeError: 'GameCreate' object has no attribute 'background_image'")) := by
  constructor
  · rfl
  · rfl

/-! ### Claim C6 — ingestion never reaches the attribute-reuse logic -/

/-- C6 (code bug): the claim says that ingesting two games whose linked
genre shares a natural key produces exactly one Genre row, linked to
both games.  No Genre row is ever produced: `crud.create_game` raises
`AttributeError` (reading `game.background_image`, undeclared on
`schemas.GameCreate`) before `db.add`, so the `get_or_create`
attribute-linking loops are dead code and ingestion of any game with a
genre payload crashes.  Evaluating ingestion of the two concrete games
sharing the genre (id 5, name `Action`, slug `action`) into the empty
database: the create call errors and the month task aborts with zero
genre rows and zero game–genre links. -/
theorem genre_ingestion_never_links :
    (create_game emptyDb recActionA
      = Except.error "AttributeError: 'GameCreate' object has no attribute 'background_image'") ∧
    ((fetch_games_for_month_task emptyDb [recActionA, recActionB2]).1.genres = []) ∧
    ((fetch_games_for_month_task emptyDb [recActionA, recActionB2]).1.gameGenres = []) ∧
    ((fetch_games_for_month_task emptyDb [recActionA, recActionB2]).2
      = Except.error "AttributeError: 'GameCreate' object has no attribute 'background_image'") := by
  refine ⟨rfl, rfl, rfl, rfl⟩

/-! ### Claim C10 — falsy filter values are silently ignored -/

/-- C10: in the games listing, falsy filter values are treated as no
filter: for every database state, `rating = 0` and an empty search
string each return exactly the same result as omitting the parameter
(`if rating:` / `if search:` are false for `0`, `""` and `None`), so
games with NULL rating are included rather than excluded by the
comparison; and a `sort_by` naming no `Game` column is silently ignored
(`getattr(models.Game, sort_by, None)` returns `None`) instead of
producing an error. -/
theorem get_games_falsy_params :
    (∀ (db : Db) (skip limit : Nat) (search genre platform : Option String)
        (sb : Option String) (so : String),
        get_games db skip limit search genre platform (some 0) sb so
          = get_games db skip limit search genre platform none sb so) ∧
    (∀ (db : Db) (skip limit : Nat) (genre platform : Option String) (rating : Option Rat)
        (sb : Option String) (so : String),
        get_games db skip limit (some "") genre platform rating sb so
          = get_games db skip limit none genre platform rating sb so) ∧
    (∀ (db : Db) (skip limit : Nat) (search genre platform : Option String)
        (rating : Option Rat) (so : String) (name : String), sortKey name = none →
        get_games db skip limit search genre platform rating (some name) so
          = get_games db skip limit search genre platform rating none so) := by
  refine ⟨?_, ?_, ?_⟩
  · intro db skip limit search genre platform sb so
    simp [get_games, truthyOptRat]
  · intro db skip limit genre platform rating sb so
    simp [get_games, truthyOptStr]
  · intro db skip limit search genre platform rating so name h
    simp [get_games, h]

/-- Witness for C10 on a concrete two-game database (one game with NULL
rating): each falsy parameter matches the omitted form, the NULL-rating
game is included under `rating = 0`, and the bogus sort name is
ignored. -/
theorem get_games_falsy_params_witness :
    (get_games dbTwoGames 0 100 none none none (some 0) none "asc"
      = get_games dbTwoGames 0 100 none none none none none "asc") ∧
    (get_games dbTwoGames 0 100 none none none (some 0) none "asc"
      = [rowNullRating, rowRated]) ∧
    (get_games dbTwoGames 0 100 (some "") none none none none "asc"
      = get_games dbTwoGames 0 100 none none none none none "asc") ∧
    (get_games dbTwoGames 0 100 none none none none (some "bogus") "asc"
      = get_games dbTwoGames 0 100 none none none none none "asc") :=
  ⟨get_games_falsy_params.1 dbTwoGames 0 100 none none none none "asc",
   by decide,
   get_games_falsy_params.2.1 dbTwoGames 0 100 none none none none "asc",
   get_games_falsy_params.2.2 dbTwoGames 0 100 none none none none "asc" "bogus" rfl⟩

/-! ### Claim C2 — the month task crashes on any absent slug -/

/-- C2 (code bug): the claim says the month-fetch task is create-only
and idempotent on slug — inserting each record not present by slug and
leaving present ones untouched.  The create path can never run:
`crud.create_game` raises `AttributeError` (reading
`game.background_image`, a field `schemas.GameCreate` does not declare)
before `db.add`, so the task aborts at the first absent slug having
created nothing.  Evaluating the task at a concrete failing input (one
record whose slug is absent): it returns the uncaught exception with the
database unchanged and no row created.  The half of the claim about
records already present by slug does hold: on a database already holding
every fetched slug the task succeeds, creates zero rows, and leaves the
database exactly as it was. -/
theorem month_task_crashes_on_absent_slug :
    (fetch_games_for_month_task emptyDb [recActionA]
      = (emptyDb,
         Except.error "AttributeError: 'GameCreate' object has no attribute 'background_image'")) ∧
    (fetch_games_for_month_task dbExisting [recExisting]
      = (dbExisting, Except.ok (1, 0))) := by
  constructor
  · rfl
  · rfl

/-! ### Generic list lemmas for the scheduler claims -/

theorem any_filter_not {α : Type} (p : α → Bool) (l : List α) :
    (l.filter (fun a => !(p a))).any p = false := by
  induction l with
  | nil => rfl
  | cons a t ih => cases ha : p a <;> simp [List.filter_cons, ha, ih]

theorem find?_filter_not {α : Type} (p : α → Bool) (l : List α) :
    (l.filter (fun a => !(p a))).find? p = none := by
  induction l with
  | nil => rfl
  | cons a t ih => cases ha : p a <;> simp [List.filter_cons, List.find?_cons, ha, ih]

theorem filter_filter_not {α : Type} (p : α → Bool) (l : List α) :
    (l.filter (fun a => !(p a))).filter p = [] := by
  induction l with
  | nil => rfl
  | cons a t ih => cases ha : p a <;> simp [List.filter_cons, ha, ih]

theorem filter_not_idem {α : Type} (p : α → Bool) (l : List α) :
    (l.filter (fun a => !(p a))).filter (fun a => !(p a)) = l.filter (fun a => !(p a)) := by
  induction l with
  | nil => rfl
  | cons a t ih => cases ha : p a <;> simp [List.filter_cons, ha, ih]

/-! ### Scheduler state lemmas -/

theorem map_pause_filter (l : List Job) (id : String) :
    (l.filter (fun j => !(j.id == id))).map
        (fun j => if j.id == id then { j with paused := true } else j)
      = l.filter (fun j => !(j.id == id)) := by
  have h : ∀ j ∈ l.filter (fun j => !(j.id == id)),
      (if j.id == id then { j with paused := true } else j) = j := by
    intro j hj
    have h2 : (j.id == id) = false := by
      simpa using (List.mem_filter.mp hj).2
    simp [h2]
  exact (List.map_congr_left h).trans (List.map_id' _)

theorem find?_map_set (l : List (String × TaskConfig)) (id : String) (tc : TaskConfig) :
    l.any (fun kv => kv.1 == id) = true →
    (l.map (fun kv => if kv.1 == id then (kv.1, tc) else kv)).find? (fun kv => kv.1 == id)
      = some (id, tc) := by
  intro h
  rw [List.find?_map]
  have hpf : ((fun kv : String × TaskConfig => kv.1 == id) ∘
        (fun kv => if kv.1 == id then (kv.1, tc) else kv))
      = fun kv : String × TaskConfig => kv.1 == id := by
    funext kv
    cases hk : kv.1 == id <;> simp [Function.comp, hk]
  rw [hpf]
  obtain ⟨kv0, hmem, hp⟩ := List.any_eq_true.mp h
  cases hf : l.find? (fun kv => kv.1 == id) with
  | none => exact absurd hp (by simpa using List.find?_eq_none.mp hf kv0 hmem)
  | some kv1 =>
    have hp1 : (kv1.1 == id) = true := List.find?_some (p := fun kv : String × TaskConfig => kv.1 == id) hf
    have hk1 : kv1.1 = id := by simpa using hp1
    simp [hp1, hk1]

theorem configSet_lookup (l : List (String × TaskConfig)) (id : String) (tc : TaskConfig) :
    (configSet l id tc).find? (fun kv => kv.1 == id) = some (id, tc) := by
  unfold configSet
  cases hex : l.any (fun kv => kv.1 == id) with
  | true =>
    simp only [hex, if_pos]
    exact find?_map_set l id tc hex
  | false =>
    have h1 : l.find? (fun kv => kv.1 == id) = none := by
      rw [List.find?_eq_none]
      intro x hx hpx
      have : l.any (fun kv => kv.1 == id) = true := List.any_eq_true.mpr ⟨x, hx, hpx⟩
      rw [hex] at this
      exact Bool.false_ne_true this
    simp [List.find?_append, h1, List.find?_cons]

theorem find?_map_disable (l : List (String × TaskConfig)) (id : String) :
    (l.map (fun kv => if kv.1 == id then (kv.1, { kv.2 with enabled := false }) else kv)).find?
        (fun kv => kv.1 == id)
      = (l.find? (fun kv => kv.1 == id)).map
          (fun kv => (kv.1, { kv.2 with enabled := false })) := by
  rw [List.find?_map]
  have hpf : ((fun kv : String × TaskConfig => kv.1 == id) ∘
        (fun kv => if kv.1 == id then (kv.1, { kv.2 with enabled := false }) else kv))
      = fun kv : String × TaskConfig => kv.1 == id := by
    funext kv
    cases hk : kv.1 == id <;> simp [Function.comp, hk]
  rw [hpf]
  cases hf : l.find? (fun kv => kv.1 == id) with
  | none => rfl
  | some kv1 =>
    have hp1 : (kv1.1 == id) = true := List.find?_some (p := fun kv : String × TaskConfig => kv.1 == id) hf
    have hk1 : kv1.1 = id := by simpa using hp1
    simp [hp1, hk1]

theorem taskconfig_disable_eta (tc : TaskConfig) (h : tc.enabled = false) :
    { tc with enabled := false } = tc := by
  cases tc
  simp only at h
  simp [h]

/-! ### Claim C8 — add_task validation, replacement, pausing, no raise -/

/-- C8: `add_task` validates that the function name is among the
registered ingestion functions and that the trigger kind is `interval`
or `cron`; on either validation failure it returns false and leaves the
scheduler state unchanged (the exception is caught and logged, never
raised).  On success it returns true, registers exactly one job with the
configured id (replacing any existing job with that id and leaving all
other jobs untouched), stores the configuration, and the new job is
paused exactly when `enabled` is false. -/
theorem add_task_validates_and_registers :
    (∀ (s : Sched) (tc : TaskConfig),
        availableTasks.contains tc.task_function = false → add_task s tc = (s, false)) ∧
    (∀ (s : Sched) (tc : TaskConfig),
        tc.trigger_type ≠ "interval" → tc.trigger_type ≠ "cron" → add_task s tc = (s, false)) ∧
    (∀ (s : Sched) (tc : TaskConfig),
        availableTasks.contains tc.task_function = true →
        (tc.trigger_type = "interval" ∨ tc.trigger_type = "cron") →
        (add_task s tc).2 = true ∧
        (add_task s tc).1.jobs.filter (fun j => j.id == tc.id)
          = [{ id := tc.id, name := tc.name, funcName := tc.task_function, args := tc.args,
               kwargs := tc.kwargs,
               trigger := if tc.trigger_type == "interval" then Trigger.interval tc.trigger_config
                          else Trigger.cron tc.trigger_config,
               paused := !tc.enabled }] ∧
        (add_task s tc).1.jobs.filter (fun j => !(j.id == tc.id))
          = s.jobs.filter (fun j => !(j.id == tc.id)) ∧
        configLookup (add_task s tc).1 tc.id = some tc) := by
  refine ⟨?_, ?_, ?_⟩
  · intro s tc hfn
    unfold add_task
    rw [hfn]
    rfl
  · intro s tc h1 h2
    have hb1 : (tc.trigger_type == "interval") = false := by simpa using h1
    have hb2 : (tc.trigger_type == "cron") = false := by simpa using h2
    unfold add_task
    cases hc : availableTasks.contains tc.task_function with
    | false => rfl
    | true =>
      rw [hb1, hb2]
      rfl
  · intro s tc hfn htrig
    rcases htrig with hi | hi <;> cases he : tc.enabled <;>
      simp only [add_task, hfn, hi, he, Bool.not_true, Bool.false_eq_true, if_false,
        beq_self_eq_true, if_true, String.reduceBEq, pause_task, hasJob,
        List.any_append, List.any_cons, List.any_nil, Bool.or_true, Bool.or_false,
        Bool.true_or, Bool.false_or, List.map_append, map_pause_filter] <;>
      refine ⟨by trivial, ?_, ?_, ?_⟩ <;>
      first
        | (rw [List.filter_append, filter_filter_not]
           simp [List.filter_cons])
        | (rw [List.filter_append, filter_not_idem]
           simp [List.filter_cons])
        | (simp only [configLookup]
           rw [configSet_lookup]
           rfl)
        | (simp only [configLookup]
           rw [find?_map_disable, configSet_lookup]
           exact show some { tc with enabled := false } = some tc by
             rw [taskconfig_disable_eta tc he])

/-- Witness for C8: a rejected function name and a rejected trigger kind
leave the empty scheduler unchanged with result false; a valid interval
configuration is accepted; a disabled configuration is registered
paused with its configuration stored. -/
theorem add_task_validates_and_registers_witness :
    (add_task ⟨[], []⟩ tcBadFunction = (⟨[], []⟩, false)) ∧
    (add_task ⟨[], []⟩ tcBadTrigger = (⟨[], []⟩, false)) ∧
    ((add_task ⟨[], []⟩ tcInterval).2 = true) ∧
    ((add_task ⟨[], []⟩ tcDisabled).2 = true) ∧
    ((add_task ⟨[], []⟩ tcDisabled).1.jobs.map Job.paused = [true]) ∧
    (configLookup (add_task ⟨[], []⟩ tcDisabled).1 "t1" = some tcDisabled) := by
  refine ⟨?_, ?_, ?_, ?_, ?_, ?_⟩
  · exact add_task_validates_and_registers.1 ⟨[], []⟩ tcBadFunction (by decide)
  · exact add_task_validates_and_registers.2.1 ⟨[], []⟩ tcBadTrigger (by decide) (by decide)
  · exact (add_task_validates_and_registers.2.2 ⟨[], []⟩ tcInterval (by decide) (Or.inl rfl)).1
  · exact (add_task_validates_and_registers.2.2 ⟨[], []⟩ tcDisabled (by decide) (Or.inl rfl)).1
  · decide
  · exact (add_task_validates_and_registers.2.2 ⟨[], []⟩ tcDisabled (by decide)
      (Or.inl rfl)).2.2.2

/-! ### Claim C9 — modify is remove-then-add and not atomic -/

/-- C9: `modify_task` is remove-then-add under the same id and is not
atomic: for every scheduler state holding the task id and every new
configuration whose add step fails validation (here: an unregistered
function name), `modify_task` returns false and leaves the task removed —
the id is absent from the job store and from the stored configurations —
rather than restoring the prior configuration. -/
theorem modify_failed_add_leaves_task_removed (s : Sched) (id : String) (tc : TaskConfig)
    (hjob : hasJob s id = true)
    (hbad : availableTasks.contains tc.task_function = false) :
    (modify_task s id tc).2 = false ∧
    hasJob (modify_task s id tc).1 id = false ∧
    configLookup (modify_task s id tc).1 id = none := by
  have hr : remove_task s id
      = ({ jobs := s.jobs.filter (fun j => !(j.id == id)),
           task_configs := s.task_configs.filter (fun kv => !(kv.1 == id)) }, true) := by
    unfold remove_task
    rw [if_pos hjob]
  have ha : add_task (remove_task s id).1 { tc with id := id }
      = ((remove_task s id).1, false) := by
    unfold add_task
    have hb2 : availableTasks.contains ({ tc with id := id }).task_function = false := hbad
    rw [hb2]
    rfl
  unfold modify_task
  rw [ha, hr]
  refine ⟨rfl, ?_, ?_⟩
  · exact any_filter_not (fun j => j.id == id) s.jobs
  · show Option.map _ ((s.task_configs.filter (fun kv => !(kv.1 == id))).find?
        (fun kv => kv.1 == id)) = none
    rw [find?_filter_not]
    rfl

/-- Witness for C9: modifying the registered task `t1` with a
configuration naming an unknown function returns false and leaves `t1`
gone from both the job store and the stored configurations. -/
theorem modify_failed_add_leaves_task_removed_witness :
    ((modify_task (add_task ⟨[], []⟩ tcInterval).1 "t1" tcBadFunction).2 = false) ∧
    (hasJob (modify_task (add_task ⟨[], []⟩ tcInterval).1 "t1" tcBadFunction).1 "t1" = false) ∧
    (configLookup (modify_task (add_task ⟨[], []⟩ tcInterval).1 "t1" tcBadFunction).1 "t1"
      = none) :=
  modify_failed_add_leaves_task_removed (add_task ⟨[], []⟩ tcInterval).1 "t1" tcBadFunction
    (by decide) (by decide)

/-! ### Lemmas about the retry loop `make_request` -/

theorem sleeps_shift (b : Rat) (i f : Nat) :
    b * 2 ^ i :: (List.range f).map (fun j => b * 2 ^ (i + 1 + j))
      = (List.range (f + 1)).map (fun j => b * 2 ^ (i + j)) := by
  rw [List.range_succ_eq_map, List.map_cons, List.map_map, Nat.add_zero]
  congr 1
  apply List.map_congr_left
  intro j hj
  simp only [Function.comp]
  have he : i + 1 + j = i + (j + 1) := by omega
  rw [he]

theorem make_request_go_first_success (tr : Nat → ApiOutcome) (b : Rat) (i fuel : Nat)
    (body : PageData) (hfuel : 1 ≤ fuel) (h : tr i = ApiOutcome.success body) :
    make_request_go tr b i fuel = (some body, 1, []) := by
  cases fuel with
  | zero => omega
  | succ f =>
    unfold make_request_go
    rw [h]

theorem make_request_first_success (tr : Nat → ApiOutcome) (r : Nat) (b : Rat)
    (body : PageData) (hr : 1 ≤ r) (h : tr 0 = ApiOutcome.success body) :
    make_request tr r b = (some body, 1, []) :=
  make_request_go_first_success tr b 0 r body hr h

theorem make_request_go_all_transient :
    ∀ (fuel i : Nat) (tr : Nat → ApiOutcome) (b : Rat),
      (∀ j, j < fuel → isTransient (tr (i + j)) = true) →
      make_request_go tr b i fuel
        = (none, fuel, (List.range fuel).map (fun j => b * 2 ^ (i + j))) := by
  intro fuel
  induction fuel with
  | zero => intro i tr b _; simp [make_request_go]
  | succ f ih =>
    intro i tr b h
    have h0 := h 0 (Nat.succ_pos f)
    rw [Nat.add_zero] at h0
    have ih' := ih (i + 1) tr b (fun j hj => by
      have hh := h (j + 1) (by omega)
      rwa [show i + (j + 1) = i + 1 + j by omega] at hh)
    unfold make_request_go
    cases ho : tr i with
    | success body => rw [ho] at h0; simp [isTransient] at h0
    | requestError =>
      simp only [ho, ih']
      rw [sleeps_shift]
    | httpError c =>
      have hc : c = 502 := by
        rw [ho] at h0
        simpa [isTransient] using h0
      subst hc
      simp only [ho, ih']
      rw [sleeps_shift]
      rfl

theorem make_request_go_all_other :
    ∀ (fuel i : Nat) (tr : Nat → ApiOutcome) (b : Rat),
      (∀ j, j < fuel → isOtherHttpError (tr (i + j)) = true) →
      make_request_go tr b i fuel = (none, fuel, []) := by
  intro fuel
  induction fuel with
  | zero => intro i tr b _; simp [make_request_go]
  | succ f ih =>
    intro i tr b h
    have h0 := h 0 (Nat.succ_pos f)
    rw [Nat.add_zero] at h0
    have ih' := ih (i + 1) tr b (fun j hj => by
      have hh := h (j + 1) (by omega)
      rwa [show i + (j + 1) = i + 1 + j by omega] at hh)
    unfold make_request_go
    cases ho : tr i with
    | success body => rw [ho] at h0; simp [isOtherHttpError] at h0
    | requestError => rw [ho] at h0; simp [isOtherHttpError] at h0
    | httpError c =>
      rw [ho] at h0
      have hc404 : (c == 404) = false := by
        simp only [isOtherHttpError, Bool.and_eq_true, Bool.not_eq_true'] at h0
        exact h0.1
      have hc502 : (c == 502) = false := by
        simp only [isOtherHttpError, Bool.and_eq_true, Bool.not_eq_true'] at h0
        exact h0.2
      simp only [ho, hc404, hc502, Bool.false_eq_true, if_false, ih']

theorem make_request_go_transient_then_success :
    ∀ (N i fuel : Nat) (tr : Nat → ApiOutcome) (b : Rat) (body : PageData),
      N < fuel → (∀ j, j < N → isTransient (tr (i + j)) = true) →
      tr (i + N) = ApiOutcome.success body →
      make_request_go tr b i fuel
        = (some body, N + 1, (List.range N).map (fun j => b * 2 ^ (i + j))) := by
  intro N
  induction N with
  | zero =>
    intro i fuel tr b body hfuel _ hs
    rw [Nat.add_zero] at hs
    exact make_request_go_first_success tr b i fuel body (by omega) hs
  | succ n ih =>
    intro i fuel tr b body hfuel htr hs
    have h0 := htr 0 (by omega)
    rw [Nat.add_zero] at h0
    cases fuel with
    | zero => omega
    | succ f =>
      have ih' := ih (i + 1) f tr b body (by omega)
        (fun j hj => by
          have hh := htr (j + 1) (by omega)
          rwa [show i + (j + 1) = i + 1 + j by omega] at hh)
        (by rw [show i + 1 + n = i + (n + 1) by omega]; exact hs)
      unfold make_request_go
      cases ho : tr i with
      | success body2 => rw [ho] at h0; simp [isTransient] at h0
      | requestError =>
        simp only [ho, ih']
        rw [sleeps_shift]
      | httpError c =>
        have hc : c = 502 := by
          rw [ho] at h0
          simpa [isTransient] using h0
        subst hc
        simp only [ho, ih']
        rw [sleeps_shift]
        rfl

theorem make_request_404_first (tr : Nat → ApiOutcome) (r : Nat) (b : Rat)
    (hr : 1 ≤ r) (h : tr 0 = ApiOutcome.httpError 404) :
    make_request tr r b = (none, 1, []) := by
  cases r with
  | zero => omega
  | succ f =>
    unfold make_request make_request_go
    rw [h]
    rfl

/-! ### Claim C4 — per-request retry policy -/

/-- C4 counterexample: the claim says that on an HTTP client error other
than 404 the client logs and stops without further retries for that
request — i.e. it would make exactly one transport call.  On a transport
that always returns status 400, `make_request` with the source's default
`retries=5` makes five calls, not one: the `else` branch of the status
handling has no `return`, so the loop continues. -/
theorem other_client_error_is_retried :
    ((make_request (fun _ => ApiOutcome.httpError 400) 5 1).2.1 = 5) ∧
    ¬ ((make_request (fun _ => ApiOutcome.httpError 400) 5 1).2.1 = 1) := by
  decide

/-- C4 (amended): for every single page request: on transient failures
(502 server errors and network errors) the client sleeps
`backoff_factor * 2 ^ attempt` seconds and retries, up to the fixed
maximum attempt count, returning `None` when all attempts fail; on a 404
response it stops immediately without error (one call, no retry — end of
pagination); and on any other HTTP status error it logs and retries
immediately without waiting, up to the maximum attempt count, returning
`None` — it does not stop after the first such error. -/
theorem make_request_retry_policy :
    (∀ (tr : Nat → ApiOutcome) (r : Nat) (b : Rat),
        (∀ i, i < r → isTransient (tr i) = true) →
        make_request tr r b = (none, r, (List.range r).map (fun i => b * 2 ^ i))) ∧
    (∀ (tr : Nat → ApiOutcome) (r : Nat) (b : Rat),
        1 ≤ r → tr 0 = ApiOutcome.httpError 404 →
        make_request tr r b = (none, 1, [])) ∧
    (∀ (tr : Nat → ApiOutcome) (r : Nat) (b : Rat),
        (∀ i, i < r → isOtherHttpError (tr i) = true) →
        make_request tr r b = (none, r, [])) := by
  refine ⟨?_, ?_, ?_⟩
  · intro tr r b h
    have hh := make_request_go_all_transient r 0 tr b (fun j hj => by
      simpa using h j hj)
    simpa [make_request] using hh
  · intro tr r b hr h
    exact make_request_404_first tr r b hr h
  · intro tr r b h
    have hh := make_request_go_all_other r 0 tr b (fun j hj => by
      simpa using h j hj)
    simpa [make_request] using hh

/-- Witness for C4's amended theorem: an always-502 transport retries
with the exponential sleeps and exhausts all five attempts; a 404 stops
after one call; an always-400 transport retries all five attempts with
no sleeps. -/
theorem make_request_retry_policy_witness :
    (make_request (fun _ => ApiOutcome.httpError 502) 5 1
      = (none, 5, (List.range 5).map (fun i => 1 * 2 ^ i))) ∧
    (make_request (fun _ => ApiOutcome.httpError 404) 5 1 = (none, 1, [])) ∧
    (make_request (fun _ => ApiOutcome.httpError 400) 5 1 = (none, 5, [])) :=
  ⟨make_request_retry_policy.1 (fun _ => ApiOutcome.httpError 502) 5 1
      (fun i _ => rfl),
   make_request_retry_policy.2.1 (fun _ => ApiOutcome.httpError 404) 5 1 (by decide) rfl,
   make_request_retry_policy.2.2 (fun _ => ApiOutcome.httpError 400) 5 1
      (fun i _ => rfl)⟩

/-! ### Lemmas about the pagination loop `fetch_pages` -/

theorem fetch_pages_terminal :
    ∀ (pages : List PageData) (p fuel r : Nat) (b : Rat) (tr : Nat → Nat → ApiOutcome),
      pages ≠ [] → pages.length ≤ fuel → 1 ≤ r →
      (∀ i (h : i < pages.length), tr (p + i) 0 = ApiOutcome.success (pages.get ⟨i, h⟩)) →
      (∀ i (h : i < pages.length),
          nextTruthy (pages.get ⟨i, h⟩) = decide (i + 1 < pages.length)) →
      fetch_pages tr r b p fuel
        = ((pages.map PageData.results).flatten, List.range' p pages.length) := by
  intro pages
  induction pages with
  | nil => intro p fuel r b tr hne; exact absurd rfl hne
  | cons a t ih =>
    intro p fuel r b tr hne hfuel hr hserve hflags
    cases fuel with
    | zero => exact absurd hfuel (by simp)
    | succ f =>
      have hs0 : tr p 0 = ApiOutcome.success a := by
        have hh := hserve 0 (by simp)
        simpa using hh
      simp only [fetch_pages, make_request_first_success (tr p) r b a hr hs0]
      cases t with
      | nil =>
        have hl : nextTruthy a = false := by
          have hh := hflags 0 (by simp)
          simpa using hh
        simp [hl, List.range']
      | cons a2 t2 =>
        have hl : nextTruthy a = true := by
          have hh := hflags 0 (by simp)
          simpa using hh
        have ihr := ih (p + 1) f r b tr (by simp)
          (by simp only [List.length_cons] at hfuel ⊢; omega) hr
          (fun i h => by
            have hh := hserve (i + 1) (by simpa using Nat.succ_lt_succ h)
            rwa [show p + (i + 1) = p + 1 + i by omega] at hh)
          (fun i h => by
            have hh := hflags (i + 1) (by simpa using Nat.succ_lt_succ h)
            have hd : (decide (i + 1 + 1 < (a :: a2 :: t2).length))
                = (decide (i + 1 < (a2 :: t2).length)) := by
              simp only [List.length_cons]
              exact decide_eq_decide.mpr (by omega)
            rwa [hd] at hh)
        simp only [hl, if_true, ihr]
        simp [List.range'_succ]

theorem fetch_pages_truthy_then_abort :
    ∀ (pages : List PageData) (p fuel r : Nat) (b : Rat) (tr : Nat → Nat → ApiOutcome),
      pages.length < fuel → 1 ≤ r →
      (∀ i (h : i < pages.length), tr (p + i) 0 = ApiOutcome.success (pages.get ⟨i, h⟩)) →
      (∀ i (h : i < pages.length), nextTruthy (pages.get ⟨i, h⟩) = true) →
      (make_request (tr (p + pages.length)) r b).1 = none →
      fetch_pages tr r b p fuel
        = ((pages.map PageData.results).flatten, List.range' p (pages.length + 1)) := by
  intro pages
  induction pages with
  | nil =>
    intro p fuel r b tr hfuel hr _ _ hnone
    cases fuel with
    | zero => omega
    | succ f =>
      simp only [List.length_nil, Nat.add_zero] at hnone
      simp only [fetch_pages, hnone]
      simp [List.range']
  | cons a t ih =>
    intro p fuel r b tr hfuel hr hserve hflags hnone
    cases fuel with
    | zero => exact absurd hfuel (by omega)
    | succ f =>
      have hs0 : tr p 0 = ApiOutcome.success a := by
        have hh := hserve 0 (by simp)
        simpa using hh
      have hl : nextTruthy a = true := by
        have hh := hflags 0 (by simp)
        simpa using hh
      have ihr := ih (p + 1) f r b tr
        (by simp only [List.length_cons] at hfuel; omega) hr
        (fun i h => by
          have hh := hserve (i + 1) (by simpa using Nat.succ_lt_succ h)
          rwa [show p + (i + 1) = p + 1 + i by omega] at hh)
        (fun i h => by
          have hh := hflags (i + 1) (by simpa using Nat.succ_lt_succ h)
          simpa using hh)
        (by
          have hh := hnone
          rwa [show p + (a :: t).length = p + 1 + t.length by
            simp only [List.length_cons]; omega] at hh)
      simp only [fetch_pages, make_request_first_success (tr p) r b a hr hs0, hl, if_true,
        ihr]
      simp [List.range'_succ]

/-! ### Claim C3 — pagination termination and completeness -/

/-- C3: for every sequence of response pages served in order from page 1
(each page answering on its first attempt, every non-final page carrying
a truthy `next` marker and the final page an absent or empty one), the
catalog client's fetch returns the concatenation of all pages' `results`
— each page's results included exactly once, in order — and requests
exactly the page numbers `1, 2, …, n` in increasing order, issuing no
request after the terminal page. -/
theorem fetch_month_pagination (apiKey : Option String) (pages : List PageData)
    (tr : Nat → Nat → ApiOutcome) (fuel : Nat)
    (hkey : truthyOptStr apiKey = true) (hne : pages ≠ [])
    (hfuel : pages.length ≤ fuel)
    (hserve : ∀ i (h : i < pages.length), tr (1 + i) 0 = ApiOutcome.success (pages.get ⟨i, h⟩))
    (hflags : ∀ i (h : i < pages.length),
        nextTruthy (pages.get ⟨i, h⟩) = decide (i + 1 < pages.length)) :
    fetch_games_for_month apiKey tr fuel
      = Except.ok ((pages.map PageData.results).flatten, List.range' 1 pages.length) := by
  unfold fetch_games_for_month
  rw [hkey, if_pos rfl,
    fetch_pages_terminal pages 1 fuel 5 1 tr hne hfuel (by omega) hserve hflags]

/-- Witness for C3: the concrete two-page transport returns both pages'
results in order and requests exactly pages 1 and 2. -/
theorem fetch_month_pagination_witness :
    fetch_games_for_month (some "k") trTwoPages 10
      = Except.ok ((([⟨[1, 2], some "url"⟩, ⟨[3], none⟩] : List PageData).map
          PageData.results).flatten, List.range' 1 2) := by
  exact fetch_month_pagination (some "k") [⟨[1, 2], some "url"⟩, ⟨[3], none⟩] trTwoPages 10
    rfl (by simp) (by simp)
    (by
      intro i h
      match i, h with
      | 0, _ => rfl
      | 1, _ => rfl)
    (by
      intro i h
      match i, h with
      | 0, _ => rfl
      | 1, _ => rfl)

/-! ### Claim C5 — retry-then-succeed counts and partial results -/

/-- C5: first, for every single-page transport that fails transiently
(502 or network error) on the first N attempts and then succeeds, with N
below the retry ceiling, `make_request` returns the successful page's
data having made exactly N+1 transport calls.  Second, for every paged
transport that serves truthy pages 1..n and whose page n+1 fails
transiently on every attempt up to the source's ceiling of 5, the fetch
returns exactly the results accumulated from pages 1..n without raising
(an `Except.ok` value). -/
theorem retry_then_success_and_partial_results :
    (∀ (tr : Nat → ApiOutcome) (N r : Nat) (b : Rat) (body : PageData),
        N < r → (∀ j, j < N → isTransient (tr j) = true) →
        tr N = ApiOutcome.success body →
        (make_request tr r b).1 = some body ∧ (make_request tr r b).2.1 = N + 1) ∧
    (∀ (apiKey : Option String) (pages : List PageData) (tr : Nat → Nat → ApiOutcome)
        (fuel : Nat),
        truthyOptStr apiKey = true → pages.length < fuel →
        (∀ i (h : i < pages.length), tr (1 + i) 0 = ApiOutcome.success (pages.get ⟨i, h⟩)) →
        (∀ i (h : i < pages.length), nextTruthy (pages.get ⟨i, h⟩) = true) →
        (∀ j, j < 5 → isTransient (tr (1 + pages.length) j) = true) →
        fetch_games_for_month apiKey tr fuel
          = Except.ok ((pages.map PageData.results).flatten,
              List.range' 1 (pages.length + 1))) := by
  constructor
  · intro tr N r b body hN htrans hs
    have hh := make_request_go_transient_then_success N 0 r tr b body hN
      (fun j hj => by simpa using htrans j hj) (by simpa using hs)
    rw [make_request, hh]
    exact ⟨rfl, rfl⟩
  · intro apiKey pages tr fuel hkey hfuel hserve hflags hceil
    have hnone : (make_request (tr (1 + pages.length)) 5 1).1 = none := by
      rw [make_request, make_request_go_all_transient 5 0 (tr (1 + pages.length)) 1
        (fun j hj => by simpa using hceil j hj)]
    unfold fetch_games_for_month
    rw [hkey, if_pos rfl,
      fetch_pages_truthy_then_abort pages 1 fuel 5 1 tr hfuel (by omega) hserve hflags hnone]

/-- Witness for C5: the transport failing transiently twice then
succeeding yields the page data in exactly three calls; the transport
whose second page always fails with 502 yields exactly page one's
results without an error. -/
theorem retry_then_success_and_partial_results_witness :
    ((make_request trTransientTwice 5 1).1 = some ⟨[7], none⟩ ∧
      (make_request trTransientTwice 5 1).2.1 = 2 + 1) ∧
    (fetch_games_for_month (some "k") trPageTwoDown 10
      = Except.ok ((([⟨[1, 2], some "url"⟩] : List PageData).map PageData.results).flatten,
          List.range' 1 (1 + 1))) := by
  constructor
  · exact retry_then_success_and_partial_results.1 trTransientTwice 2 5 1 ⟨[7], none⟩
      (by omega) (by intro j hj; interval_cases j <;> rfl) rfl
  · exact retry_then_success_and_partial_results.2 (some "k") [⟨[1, 2], some "url"⟩]
      trPageTwoDown 10 rfl (by simp)
      (by intro i h; match i, h with | 0, _ => rfl)
      (by intro i h; match i, h with | 0, _ => rfl)
      (by intro j hj; rfl)

end GameInsight
